import Mathlib

/-!
Shallow embedding of the session-lifecycle core of the `emptty` login manager
(`src/session.go`, `src/daemon.go`).  Pure data flow is translated into Lean
functions; the controller's external effects (carrier start/stop, utmp
accounting, process launch, interrupt flag, filesystem) are captured by
explicit oracle records describing the outcome of each effect, and the
controller produces an explicit event trace.  Functions of the repository
that live outside the two given source files (`handleErr`, `sysuser`
accessors, `getStrExec`, the display-family enum) are modelled from the
specification and are marked as such in their doc comments.
-/

/-! ## Environment variable names (session.go lines 9-28) -/

def envXdgConfigHome : String := "XDG_CONFIG_HOME"
def envXdgRuntimeDir : String := "XDG_RUNTIME_DIR"
def envXdgSessionId : String := "XDG_SESSION_ID"
def envXdgSessionType : String := "XDG_SESSION_TYPE"
def envXdgSessionClass : String := "XDG_SESSION_CLASS"
def envXdgSeat : String := "XDG_SEAT"
def envHome : String := "HOME"
def envPwd : String := "PWD"
def envUser : String := "USER"
def envLogname : String := "LOGNAME"
def envXauthority : String := "XAUTHORITY"
def envDisplay : String := "DISPLAY"
def envShell : String := "SHELL"
def envLang : String := "LANG"
def envPath : String := "PATH"
def envDesktopSession : String := "DESKTOP_SESSION"
def envXdgSessDesktop : String := "XDG_SESSION_DESKTOP"
def envUid : String := "UID"

/-! ## Data model -/

/-- Modelled from the spec: the display-server family tag of a desktop
selection.  The source switch in `startSession` (session.go lines 52-57)
handles only `Wayland` and `Xorg`; the enum type itself is declared outside
`src/`, so a further constructor (`Undefined`, the zero value) stands for
every other family. -/
inductive enDisplay
  | Undefined
  | Wayland
  | Xorg
deriving DecidableEq, Repr

/-- Modelled from the spec: the session-type name written to
`XDG_SESSION_TYPE` for each family (session.go line 69 calls
`s.d.env.sessionType()`, declared outside src/). -/
def enDisplay.sessionType : enDisplay → String
  | .Wayland => "wayland"
  | .Xorg => "x11"
  | .Undefined => "tty"

/-- The user identity (`sysuser`, declared outside src/; modelled from the
spec: username, numeric uid/gid, home directory, login shell, and an
environment mapping with unique keys; a missing key reads as ""). -/
structure sysuser where
  username : String
  uid : Int
  gid : Int
  homedir : String
  shellPath : String
  env : String → String

/-- `sysuser.getenv` — modelled from the spec: read of the environment
mapping. -/
def sysuser.getenv (u : sysuser) (k : String) : String := u.env k

/-- `sysuser.setenv` — modelled from the spec: overwrite of one entry of the
environment mapping. -/
def sysuser.setenv (u : sysuser) (k v : String) : sysuser :=
  { u with env := fun q => if q = k then v else u.env q }

/-- `sysuser.setenvIfEmpty` — modelled from the spec: set the entry only when
it currently reads as empty. -/
def sysuser.setenvIfEmpty (u : sysuser) (k v : String) : sysuser :=
  if u.getenv k = "" then u.setenv k v else u

/-- `sysuser.strUid` — modelled from the spec: the numeric uid rendered as a
string. -/
def sysuser.strUid (u : sysuser) : String := toString u.uid

/-- `sysuser.getShell` — modelled from the spec: the identity's resolved
login shell path. -/
def sysuser.getShell (u : sysuser) : String := u.shellPath

/-- The desktop selection (`desktop`, declared outside src/; modelled from
the spec).  `strExec` and `allowStartupWrap` are the two results of
`d.getStrExec()` (the executable command line, and whether that command
admits a startup wrapper in front of it); `child` carries the name of the
optional child selection, the only child field the core reads. -/
structure desktop where
  env : enDisplay
  name : String
  child : Option String
  isUser : Bool
  loginShell : String
  strExec : String
  allowStartupWrap : Bool
deriving DecidableEq, Repr

/-- The session configuration (`config`, declared outside src/; modelled from
the spec: feature flags and locale default read by the core). -/
structure config where
  NoXdgFallback : Bool
  AlwaysDbusLaunch : Bool
  XinitrcLaunch : Bool
  DbusLaunch : Bool
  Lang : String
deriving DecidableEq, Repr

/-- `commonSession` (session.go lines 40-46) minus the embedded strategy
value and dbus handle, which the embedding threads explicitly. -/
structure commonSession where
  usr : sysuser
  d : desktop
  conf : config

/-- The two concrete fillers of the `session` strategy (declared outside
src/), as a closed tag: `startSession` only ever installs one of these. -/
inductive sessionImpl
  | waylandSession
  | xorgSession
deriving DecidableEq, Repr

/-! ## Oracles for external effects -/

/-- Outcomes of the filesystem/OS effects performed by `defineEnvironment`:
whether a path exists, the result of the single `os.MkdirAll` call
(`none` = success), and the controller process's own `PATH`. -/
structure envOracle where
  fileExists : String → Bool
  mkdirErr : Option String
  osPath : String

/-- Outcomes of the runtime effects performed by `commonSession.start`:
the result of `session.Start()` (`none` = success), the carrier pid reported
by `getCarrierPid()`, the child's own pid, the value of the process-wide
`interrupted` flag when the exit status is evaluated, the result of
`session.Wait()`, and the result of `finishCarrier()`. -/
structure runOracle where
  startErr : Option String
  carrierPid : Int
  childPid : Int
  interrupted : Bool
  waitErr : Option String
  carrierErr : Option String
deriving DecidableEq, Repr

/-- Observable effects of `defineEnvironment` (logging omitted as
claim-irrelevant).  `fatalEnv` records the generic error handler firing. -/
inductive envEvent
  | mkdirAll (path : String)
  | chown (path : String) (uid gid : Int)
  | chdir (path : String)
  | fatalEnv (msg : String)
deriving DecidableEq, Repr

/-- Observable effects of `commonSession.start` after the environment step. -/
inductive runEvent
  | startCarrier
  | dbusLaunch
  | dbusInterrupt
  | utmpAdd (pid : Int)
  | utmpEnd
  | finishCarrier
  | startupFatal (msg : String)
  | runtimeErrReported
  | carrierErrReported
deriving DecidableEq, Repr

/-! ## defineEnvironment (session.go lines 128-175) -/

/-- `commonSession.defineEnvironment` (session.go lines 128-175).  Returns
the user with the updated environment mapping, the effect trace, and whether
the step aborted.  `handleErr` (declared outside src/) is modelled from the
spec: per the error taxonomy a present error passed to the generic handler is
fatal to the session attempt, so a failing `os.MkdirAll` ends the step with
`true` (aborted) and nothing after it runs; `os.Chown`'s result is ignored by
the source.  `defineSpecificEnvVariables` (declared outside src/) is
modelled from the spec as not touching any variable of the environment
policy, hence a no-op here. -/
def commonSession.defineEnvironment (s : commonSession) (o : envOracle) :
    sysuser × List envEvent × Bool :=
  let u := s.usr.setenv envHome s.usr.homedir
  let u := u.setenv envPwd s.usr.homedir
  let u := u.setenv envUser s.usr.username
  let u := u.setenv envLogname s.usr.username
  let u := u.setenv envUid s.usr.strUid
  let u :=
    if !s.conf.NoXdgFallback then
      (((u.setenvIfEmpty envXdgConfigHome (s.usr.homedir ++ "/.config")).setenvIfEmpty
          envXdgRuntimeDir ("/run/user/" ++ s.usr.strUid)).setenvIfEmpty
          envXdgSeat "seat0").setenv envXdgSessionClass "user"
    else u
  let u := u.setenv envShell s.usr.getShell
  let u := u.setenvIfEmpty envLang s.conf.Lang
  let u := u.setenvIfEmpty envPath o.osPath
  let u :=
    if !s.conf.NoXdgFallback then
      if s.d.name ≠ "" then
        (u.setenv envDesktopSession s.d.name).setenv envXdgSessDesktop s.d.name
      else
        match s.d.child with
        | some cn => if cn ≠ "" then
            (u.setenv envDesktopSession cn).setenv envXdgSessDesktop cn
          else u
        | none => u
    else u
  -- create XDG folder (lines 159-172), then os.Chdir (line 174)
  let tail : List envEvent × Bool :=
    if !s.conf.NoXdgFallback then
      if !(o.fileExists (u.getenv envXdgRuntimeDir)) then
        match o.mkdirErr with
        | some msg =>
          ([envEvent.mkdirAll (u.getenv envXdgRuntimeDir), envEvent.fatalEnv msg], true)
        | none =>
          ([envEvent.mkdirAll (u.getenv envXdgRuntimeDir),
            envEvent.chown (u.getenv envXdgRuntimeDir) s.usr.uid s.usr.gid,
            envEvent.chdir (u.getenv envPwd)], false)
      else
        ([envEvent.chdir (u.getenv envPwd)], false)
    else
      ([envEvent.chdir (u.getenv envPwd)], false)
  (u, tail)

/-! ## prepareGuiCommand (session.go lines 177-205) -/

/-- Whether `pat` occurs as a contiguous run inside `l` (the semantics of
Go `strings.Contains` at the element-list level). -/
def listContainsRun [BEq α] : List α → List α → Bool
  | pat, [] => pat.isEmpty
  | pat, a :: as => pat.isPrefixOf (a :: as) || listContainsRun pat as

/-- Go `strings.Contains s sub`. -/
def strContains (s sub : String) : Bool := listContainsRun sub.toList s.toList

/-- The not-yet-started child-process descriptor built by `cmdAsUser`
(declared outside src/; modelled from the spec: configured for the target
user, with a program name and argument list). -/
structure execCmd where
  user : String
  name : String
  args : List String
deriving DecidableEq, Repr

/-- `cmdAsUser` — modelled from the spec: builds the unprivileged child
descriptor for the given user from a program name and arguments. -/
def cmdAsUser (u : sysuser) (name : String) (args : List String) : execCmd :=
  ⟨u.username, name, args⟩

/-- `commonSession.getLoginShell` (session.go lines 200-205). -/
def commonSession.getLoginShell (s : commonSession) : String :=
  if s.d.loginShell ≠ "" then s.d.loginShell else "/bin/sh"

/-- The condition of the xinitrc branch of `prepareGuiCommand`
(session.go line 183). -/
def xinitrcActive (s : commonSession) (fe : String → Bool) : Bool :=
  s.d.allowStartupWrap && s.conf.XinitrcLaunch && (s.d.env == enDisplay.Xorg) &&
    !(strContains s.d.strExec ".xinitrc") && fe (s.usr.homedir ++ "/.xinitrc")

/-- `commonSession.prepareGuiCommand` (session.go lines 177-197).  `fe` is
the `fileExists` oracle.  Returns the command descriptor, the (possibly
xinitrc-prefixed) command string, and whether the dbus branch installed a
dbus handle. -/
def commonSession.prepareGuiCommand (s : commonSession) (fe : String → Bool) :
    execCmd × String × Bool :=
  let strExec := s.d.strExec
  let startScript := s.d.isUser && !s.d.allowStartupWrap
  if xinitrcActive s fe then
    -- startScript = true; strExec = homedir + "/.xinitrc " + strExec
    let strExec2 := s.usr.homedir ++ "/.xinitrc " ++ strExec
    (cmdAsUser s.usr s.getLoginShell (strExec2.splitOn " "), strExec2, false)
  else if s.d.allowStartupWrap && s.conf.DbusLaunch && !(strContains strExec "dbus-launch") then
    (if startScript then cmdAsUser s.usr s.getLoginShell (strExec.splitOn " ")
     else cmdAsUser s.usr strExec [], strExec, true)
  else
    (if startScript then cmdAsUser s.usr s.getLoginShell (strExec.splitOn " ")
     else cmdAsUser s.usr strExec [], strExec, false)

/-! ## commonSession.start (session.go lines 62-126) -/

/-- The effect trace of the controller from `startCarrier()` (line 66) to the
end of `start` (line 126), given that the environment step completed and the
strategy dispatch succeeded.  `dbusOn` says whether a dbus handle was
installed (line 72-74 or the dbus branch of `prepareGuiCommand`).
`handleErr` at the launch-failure site (line 95) is modelled from the spec
as fatal (StartupError): the trace ends there, so no accounting entry is
ever added on that path.  The two `handleStrErr` reports (lines 119 and 124)
are modelled from the spec as the user-visible surfacing of
RuntimeExitError and CarrierExitError. -/
def runTrace (dbusOn : Bool) (ro : runOracle) : List runEvent :=
  [runEvent.startCarrier]
    ++ (if dbusOn then [runEvent.dbusLaunch] else [])
    ++ match ro.startErr with
       | some msg => [runEvent.finishCarrier, runEvent.startupFatal msg]
       | none =>
         let pid := ro.carrierPid
         let pid := if pid ≤ 0 then ro.childPid else pid
         [runEvent.utmpAdd pid]
           ++ (if dbusOn then [runEvent.dbusInterrupt] else [])
           ++ [runEvent.finishCarrier, runEvent.utmpEnd]
           ++ (if !ro.interrupted && ro.waitErr.isSome then [runEvent.runtimeErrReported] else [])
           ++ (if !ro.interrupted && ro.carrierErr.isSome then [runEvent.carrierErrReported] else [])

/-- `commonSession.start` (session.go lines 62-126).  `strat` is the embedded
strategy value installed by `startSession` (`none` when the family matched
no case of the switch).  Result: the user after environment mutation, the
environment-step trace, and the runtime trace — `none` when the dispatch at
`s.startCarrier()` would dereference a nil embedded value, `some []` when
the environment step aborted before reaching the dispatch. -/
def commonSession.start (s : commonSession) (strat : Option sessionImpl)
    (eo : envOracle) (ro : runOracle) :
    sysuser × List envEvent × Option (List runEvent) :=
  let de := s.defineEnvironment eo
  if de.2.2 then
    (de.1, de.2.1, some [])
  else
    match strat with
    | none => (de.1, de.2.1, none)
    | some _ =>
      -- line 68-70: XDG_SESSION_TYPE fallback
      let u2 := if !s.conf.NoXdgFallback then
          (de.1).setenv envXdgSessionType s.d.env.sessionType
        else de.1
      let prep := { s with usr := u2 }.prepareGuiCommand eo.fileExists
      let dbusOn := s.conf.AlwaysDbusLaunch || prep.2.2
      (u2, de.2.1, some (runTrace dbusOn ro))

/-- `sessionFor` — the strategy selection of `startSession` (session.go
lines 52-57): the switch installs a filler only for `Wayland` and `Xorg`;
any other family leaves the embedded value nil. -/
def sessionFor (d : desktop) : Option sessionImpl :=
  match d.env with
  | .Wayland => some .waylandSession
  | .Xorg => some .xorgSession
  | .Undefined => none

/-- `startSession` (session.go lines 48-60). -/
def startSession (usr : sysuser) (d : desktop) (conf : config)
    (eo : envOracle) (ro : runOracle) :
    sysuser × List envEvent × Option (List runEvent) :=
  let s : commonSession := ⟨usr, d, conf⟩
  s.start (sessionFor d) eo ro

/-! ## printIssue trimming loop (daemon.go lines 84-98)

The evaluated issue text is modelled as its list of bytes (`List Char`, one
entry per byte of the Go string; the loop only ever compares against the
ASCII newline).  `issue[len(issue)-2:]` is `l.drop (l.length - 2)`;
`issue[:len(issue)-1]` is `l.dropLast`; a Go slice-bound violation
(`len(issue) < 2` makes the low bound negative) is `none`. -/

/-- One fuel-indexed unfolding of the trimming loop of `printIssue`
(daemon.go lines 91-93).  The fuel is initialised to the length of the text
and each iteration shortens the text by one byte, so the fuel is never
exhausted before the loop either returns or violates a slice bound; `none`
models the out-of-range slice panic. -/
def printIssueTrimGo : Nat → List Char → Option (List Char)
  | 0, _ => none
  | fuel + 1, l =>
    if l.length < 2 then none
    else if l.drop (l.length - 2) = ['\n', '\n'] then printIssueTrimGo fuel l.dropLast
    else some l

/-- The trailing-blank-line trimming loop of `printIssue` (daemon.go
lines 91-93): `some` is the trimmed text, `none` an out-of-range slice. -/
def printIssueTrim (l : List Char) : Option (List Char) :=
  printIssueTrimGo l.length l

/-! ## Trace predicates -/

def runEvent.isUtmpAdd : runEvent → Bool
  | .utmpAdd _ => true
  | _ => false

def runEvent.isUtmpEnd : runEvent → Bool
  | .utmpEnd => true
  | _ => false

def runEvent.isFinishCarrier : runEvent → Bool
  | .finishCarrier => true
  | _ => false

def runEvent.isRuntimeErr : runEvent → Bool
  | .runtimeErrReported => true
  | _ => false

def runEvent.isCarrierErr : runEvent → Bool
  | .carrierErrReported => true
  | _ => false

/-! ## Lemmas about the runtime trace -/

theorem runTrace_countP_finish (b : Bool) (ro : runOracle) :
    (runTrace b ro).countP runEvent.isFinishCarrier = 1 := by
  cases b <;> cases hse : ro.startErr <;> cases hi : ro.interrupted <;>
    cases hw : ro.waitErr <;> cases hc : ro.carrierErr <;>
    simp [runTrace, runEvent.isFinishCarrier, hse, hi, hw, hc,
      List.countP_append, List.countP_cons]

theorem runTrace_countP_add (b : Bool) (ro : runOracle) :
    (runTrace b ro).countP runEvent.isUtmpAdd =
      if ro.startErr.isSome then 0 else 1 := by
  cases b <;> cases hse : ro.startErr <;> cases hi : ro.interrupted <;>
    cases hw : ro.waitErr <;> cases hc : ro.carrierErr <;>
    simp [runTrace, runEvent.isUtmpAdd, hse, hi, hw, hc,
      List.countP_append, List.countP_cons]

theorem runTrace_countP_end (b : Bool) (ro : runOracle) :
    (runTrace b ro).countP runEvent.isUtmpEnd =
      if ro.startErr.isSome then 0 else 1 := by
  cases b <;> cases hse : ro.startErr <;> cases hi : ro.interrupted <;>
    cases hw : ro.waitErr <;> cases hc : ro.carrierErr <;>
    simp [runTrace, runEvent.isUtmpEnd, hse, hi, hw, hc,
      List.countP_append, List.countP_cons]

theorem runTrace_no_runtimeErr (b : Bool) (ro : runOracle)
    (h : ro.interrupted = true) :
    (runTrace b ro).countP runEvent.isRuntimeErr = 0 := by
  cases b <;> cases hse : ro.startErr <;>
    cases hw : ro.waitErr <;> cases hc : ro.carrierErr <;>
    simp [runTrace, runEvent.isRuntimeErr, hse, h, hw, hc,
      List.countP_append, List.countP_cons]

theorem runTrace_no_carrierErr (b : Bool) (ro : runOracle)
    (h : ro.interrupted = true) :
    (runTrace b ro).countP runEvent.isCarrierErr = 0 := by
  cases b <;> cases hse : ro.startErr <;>
    cases hw : ro.waitErr <;> cases hc : ro.carrierErr <;>
    simp [runTrace, runEvent.isCarrierErr, hse, h, hw, hc,
      List.countP_append, List.countP_cons]

theorem runTrace_add_mem (b : Bool) (ro : runOracle) (h : ro.startErr = none) :
    runEvent.utmpAdd (if 0 < ro.carrierPid then ro.carrierPid else ro.childPid) ∈
      runTrace b ro := by
  have hp : (if 0 < ro.carrierPid then ro.carrierPid else ro.childPid) =
      (if ro.carrierPid ≤ 0 then ro.childPid else ro.carrierPid) := by
    rcases lt_or_le 0 ro.carrierPid with hlt | hle
    · simp [hlt, not_le.mpr hlt]
    · simp [hle, not_lt.mpr hle]
  rw [hp]
  cases b <;> simp [runTrace, h]

theorem runTrace_end_after_add (b : Bool) (ro : runOracle) :
    (((runTrace b ro).takeWhile (fun e => !(runEvent.isUtmpAdd e))).countP
      runEvent.isUtmpEnd) = 0 := by
  cases b <;> cases hse : ro.startErr <;> cases hi : ro.interrupted <;>
    cases hw : ro.waitErr <;> cases hc : ro.carrierErr <;>
    simp [runTrace, runEvent.isUtmpAdd, runEvent.isUtmpEnd, hse, hi, hw, hc,
      List.takeWhile, List.countP_append, List.countP_cons]

/-! ## Lifting to the controller -/

/-- Whether a dbus handle is installed by the time `start` launches the
child: the `AlwaysDbusLaunch` assignment of lines 72-74 or the dbus branch
of `prepareGuiCommand`. -/
def startDbusOn (s : commonSession) (eo : envOracle) : Bool :=
  let de := s.defineEnvironment eo
  let u2 := if !s.conf.NoXdgFallback then
      (de.1).setenv envXdgSessionType s.d.env.sessionType
    else de.1
  s.conf.AlwaysDbusLaunch || ({ s with usr := u2 }.prepareGuiCommand eo.fileExists).2.2

/-- The runtime-trace component of `start`, by control path: environment
abort, nil strategy dispatch, or the launched run. -/
theorem start_run_eq (s : commonSession) (strat : Option sessionImpl)
    (eo : envOracle) (ro : runOracle) :
    (s.start strat eo ro).2.2 =
      if (s.defineEnvironment eo).2.2 then some []
      else
        match strat with
        | none => none
        | some _ => some (runTrace (startDbusOn s eo) ro) := by
  by_cases hab : (s.defineEnvironment eo).2.2 = true <;>
    cases strat <;>
      simp [commonSession.start, startDbusOn, hab]

/-! ## Claim theorems: controller -/

/-- C1: if the InterruptFlag is set before the controller evaluates the exit
status, neither a RuntimeExitError nor a CarrierExitError is surfaced as a
user-visible failure, regardless of the child's or carrier's actual exit
result. -/
theorem interrupt_suppresses_exit_errors (s : commonSession)
    (strat : Option sessionImpl) (eo : envOracle) (ro : runOracle)
    (hint : ro.interrupted = true) :
    (((s.start strat eo ro).2.2).getD []).countP runEvent.isRuntimeErr = 0 ∧
    (((s.start strat eo ro).2.2).getD []).countP runEvent.isCarrierErr = 0 := by
  rw [start_run_eq]
  by_cases hab : (s.defineEnvironment eo).2.2 = true
  · simp [hab]
  · cases strat with
    | none => simp [hab]
    | some k =>
      simp only [hab, if_neg, Bool.false_eq_true, Option.getD_some]
      exact ⟨runTrace_no_runtimeErr _ ro hint, runTrace_no_carrierErr _ ro hint⟩

/-- Concrete sample data shared by several witnesses: an empty incoming
environment, a user, a Wayland selection and a suppressed-fallback config. -/
def sampleEnv : String → String := fun _ => ""

def aliceUsr : sysuser := ⟨"alice", 1000, 1000, "/home/alice", "/bin/bash", sampleEnv⟩

def swayDesk : desktop := ⟨enDisplay.Wayland, "sway", none, false, "", "sway", true⟩

def quietConf : config := ⟨true, false, false, false, "C"⟩

def sampleS : commonSession := ⟨aliceUsr, swayDesk, quietConf⟩

def sampleEO : envOracle := ⟨fun _ => false, none, "/usr/bin"⟩

def introRO : runOracle := ⟨none, 0, 831, true, some "exit status 1", some "carrier teardown failed"⟩

theorem interrupt_suppresses_exit_errors_witness :
    (((sampleS.start (some sessionImpl.waylandSession) sampleEO introRO).2.2).getD
      []).countP runEvent.isRuntimeErr = 0 ∧
    (((sampleS.start (some sessionImpl.waylandSession) sampleEO introRO).2.2).getD
      []).countP runEvent.isCarrierErr = 0 :=
  interrupt_suppresses_exit_errors sampleS (some sessionImpl.waylandSession)
    sampleEO introRO rfl

/-- C2: for every session the number of AccountingLedger add operations
equals the number of remove operations after the controller returns; on the
paths where the child launches (happy or interrupted) there is exactly one
add followed by one remove, and when the launch fails (or the controller
aborts or crashes earlier) there are zero adds and zero removes. -/
theorem utmp_add_remove_balanced (s : commonSession) (strat : Option sessionImpl)
    (eo : envOracle) (ro : runOracle) :
    (((s.start strat eo ro).2.2).getD []).countP runEvent.isUtmpAdd =
      (((s.start strat eo ro).2.2).getD []).countP runEvent.isUtmpEnd ∧
    (((s.start strat eo ro).2.2).getD []).countP runEvent.isUtmpAdd =
      (if (s.defineEnvironment eo).2.2 = false ∧ strat.isSome = true ∧ ro.startErr = none
       then 1 else 0) ∧
    ((((s.start strat eo ro).2.2).getD []).takeWhile
        (fun e => !(runEvent.isUtmpAdd e))).countP runEvent.isUtmpEnd = 0 := by
  rw [start_run_eq]
  by_cases hab : (s.defineEnvironment eo).2.2 = true
  · simp [hab]
  · cases strat with
    | none => simp [hab]
    | some k =>
      simp only [hab, Bool.false_eq_true, if_false, Option.getD_some]
      refine ⟨?_, ?_, runTrace_end_after_add _ ro⟩
      · rw [runTrace_countP_add, runTrace_countP_end]
      · rw [runTrace_countP_add]
        have hf : (s.defineEnvironment eo).2.2 = false := by
          simpa using hab
        cases hse : ro.startErr <;> simp [hse, hf]

/-- C3: the carrier's stop operation (`finishCarrier`) is invoked exactly
once along every control path of the controller that reaches the dispatch:
once after the child exits on the normal path, and once when the child
process fails to start. -/
theorem finish_carrier_exactly_once (s : commonSession) (strat : Option sessionImpl)
    (eo : envOracle) (ro : runOracle)
    (henv : (s.defineEnvironment eo).2.2 = false) (hstrat : strat.isSome = true) :
    (((s.start strat eo ro).2.2).getD []).countP runEvent.isFinishCarrier = 1 := by
  rw [start_run_eq]
  cases strat with
  | none => simp at hstrat
  | some k =>
    simp only [henv, Bool.false_eq_true, if_false, Option.getD_some]
    exact runTrace_countP_finish _ ro

/-- A run in which the child process fails to start. -/
def failRO : runOracle := ⟨some "exec: not found", 0, 0, false, none, none⟩

theorem finish_carrier_exactly_once_witness :
    (((sampleS.start (some sessionImpl.waylandSession) sampleEO failRO).2.2).getD
      []).countP runEvent.isFinishCarrier = 1 :=
  finish_carrier_exactly_once sampleS (some sessionImpl.waylandSession)
    sampleEO failRO rfl rfl

/-- C8: when the child starts successfully, the accounting entry is keyed by
the carrier's pid when positive, and by the child's own pid otherwise. -/
theorem utmp_pid_selection (s : commonSession) (strat : Option sessionImpl)
    (eo : envOracle) (ro : runOracle)
    (henv : (s.defineEnvironment eo).2.2 = false) (hstrat : strat.isSome = true)
    (hstart : ro.startErr = none) :
    runEvent.utmpAdd (if 0 < ro.carrierPid then ro.carrierPid else ro.childPid) ∈
      ((s.start strat eo ro).2.2).getD [] := by
  rw [start_run_eq]
  cases strat with
  | none => simp at hstrat
  | some k =>
    simp only [henv, Bool.false_eq_true, if_false, Option.getD_some]
    exact runTrace_add_mem _ ro hstart

/-- An uneventful run with a separate carrier process (pid 42). -/
def plainRO : runOracle := ⟨none, 42, 831, false, none, none⟩

theorem utmp_pid_selection_witness :
    runEvent.utmpAdd (if 0 < plainRO.carrierPid then plainRO.carrierPid
      else plainRO.childPid) ∈
      ((sampleS.start (some sessionImpl.xorgSession) sampleEO plainRO).2.2).getD [] :=
  utmp_pid_selection sampleS (some sessionImpl.xorgSession) sampleEO plainRO
    rfl rfl rfl

/-- C10: when the desktop family is neither Wayland nor Xorg, the switch of
`startSession` installs no strategy (the embedded field stays nil) and the
dispatch at `s.startCarrier()` is a nil-interface dereference, so the run
has no defined trace. -/
theorem unknown_family_nil_dispatch (usr : sysuser) (d : desktop) (conf : config)
    (eo : envOracle) (ro : runOracle)
    (hW : d.env ≠ enDisplay.Wayland) (hX : d.env ≠ enDisplay.Xorg)
    (henv : ((⟨usr, d, conf⟩ : commonSession).defineEnvironment eo).2.2 = false) :
    sessionFor d = none ∧ (startSession usr d conf eo ro).2.2 = none := by
  have hs : sessionFor d = none := by
    cases he : d.env
    · simp [sessionFor, he]
    · exact absurd he hW
    · exact absurd he hX
  refine ⟨hs, ?_⟩
  unfold startSession
  rw [start_run_eq, hs]
  simp [henv]

/-- A selection whose family is the zero value, outside the switch. -/
def oddDesk : desktop := ⟨enDisplay.Undefined, "odd", none, false, "", "odd", true⟩

theorem unknown_family_nil_dispatch_witness :
    sessionFor oddDesk = none ∧
    (startSession aliceUsr oddDesk quietConf sampleEO plainRO).2.2 = none :=
  unknown_family_nil_dispatch aliceUsr oddDesk quietConf sampleEO plainRO
    (by decide) (by decide) rfl

/-! ## Claim theorems: environment policy -/

theorem getenv_setenv_ne (u : sysuser) (k v q : String) (h : q ≠ k) :
    (u.setenv k v).getenv q = u.getenv q := by
  simp [sysuser.setenv, sysuser.getenv, h]

theorem getenv_setenvIfEmpty_ne (u : sysuser) (k v q : String) (h : q ≠ k) :
    (u.setenvIfEmpty k v).getenv q = u.getenv q := by
  unfold sysuser.setenvIfEmpty
  split
  · exact getenv_setenv_ne u k v q h
  · rfl

/-- C7: when environment fallback is suppressed, the environment policy
leaves the config-home, runtime-dir, seat, session-class and
desktop-session-name variables exactly as they arrived. -/
theorem fallback_suppressed_env_untouched (s : commonSession) (o : envOracle)
    (h : s.conf.NoXdgFallback = true) :
    (s.defineEnvironment o).1.getenv envXdgConfigHome = s.usr.getenv envXdgConfigHome ∧
    (s.defineEnvironment o).1.getenv envXdgRuntimeDir = s.usr.getenv envXdgRuntimeDir ∧
    (s.defineEnvironment o).1.getenv envXdgSeat = s.usr.getenv envXdgSeat ∧
    (s.defineEnvironment o).1.getenv envXdgSessionClass = s.usr.getenv envXdgSessionClass ∧
    (s.defineEnvironment o).1.getenv envDesktopSession = s.usr.getenv envDesktopSession ∧
    (s.defineEnvironment o).1.getenv envXdgSessDesktop = s.usr.getenv envXdgSessDesktop := by
  refine ⟨?_, ?_, ?_, ?_, ?_, ?_⟩ <;>
    simp [commonSession.defineEnvironment, h, getenv_setenv_ne, getenv_setenvIfEmpty_ne,
      envXdgConfigHome, envXdgRuntimeDir, envXdgSeat, envXdgSessionClass,
      envDesktopSession, envXdgSessDesktop, envHome, envPwd, envUser, envLogname,
      envUid, envShell, envLang, envPath]

/-- C7 witness: a concrete suppressed-fallback session leaves the five
variables (six environment keys) as they arrived. -/
theorem fallback_suppressed_env_untouched_witness :
    (sampleS.defineEnvironment sampleEO).1.getenv envXdgConfigHome =
      sampleS.usr.getenv envXdgConfigHome ∧
    (sampleS.defineEnvironment sampleEO).1.getenv envXdgRuntimeDir =
      sampleS.usr.getenv envXdgRuntimeDir ∧
    (sampleS.defineEnvironment sampleEO).1.getenv envXdgSeat =
      sampleS.usr.getenv envXdgSeat ∧
    (sampleS.defineEnvironment sampleEO).1.getenv envXdgSessionClass =
      sampleS.usr.getenv envXdgSessionClass ∧
    (sampleS.defineEnvironment sampleEO).1.getenv envDesktopSession =
      sampleS.usr.getenv envDesktopSession ∧
    (sampleS.defineEnvironment sampleEO).1.getenv envXdgSessDesktop =
      sampleS.usr.getenv envXdgSessDesktop :=
  fallback_suppressed_env_untouched sampleS sampleEO rfl

/-- C4 counterexample setup: fallback active, runtime dir absent, and the
directory creation fails. -/
def fallConf : config := ⟨false, false, false, false, "C"⟩

def c4S : commonSession := ⟨aliceUsr, swayDesk, fallConf⟩

def c4O : envOracle := ⟨fun _ => false, some "permission denied", "/usr/bin"⟩

/-- C4 counterexample: with fallback not suppressed and the runtime-dir path
absent, a failing directory creation does NOT merely log — the step hands
the error to the generic handler and the session attempt aborts (the aborted
flag of the environment step is set). -/
theorem xdg_dir_creation_failure_cex :
    c4S.conf.NoXdgFallback = false ∧
    c4O.fileExists ((c4S.defineEnvironment c4O).1.getenv envXdgRuntimeDir) = false ∧
    c4O.mkdirErr.isSome = true ∧
    (c4S.defineEnvironment c4O).2.2 = true :=
  ⟨rfl, rfl, rfl, rfl⟩

/-- C4 (amended): when fallback is not suppressed and the runtime-dir path
does not exist, the step attempts to create the directory and, on success,
sets its owner to the target uid/gid; a creation failure is escalated
through the generic error handler (the step aborts), not merely logged. -/
theorem xdg_dir_creation (s : commonSession) (o : envOracle)
    (hx : s.conf.NoXdgFallback = false)
    (hne : o.fileExists ((s.defineEnvironment o).1.getenv envXdgRuntimeDir) = false) :
    envEvent.mkdirAll ((s.defineEnvironment o).1.getenv envXdgRuntimeDir) ∈
      (s.defineEnvironment o).2.1 ∧
    (s.defineEnvironment o).2.2 = o.mkdirErr.isSome ∧
    (envEvent.chown ((s.defineEnvironment o).1.getenv envXdgRuntimeDir)
        s.usr.uid s.usr.gid ∈ (s.defineEnvironment o).2.1 ↔ o.mkdirErr = none) := by
  simp only [commonSession.defineEnvironment, hx, Bool.not_false, if_true] at hne ⊢
  rw [hne]
  cases hm : o.mkdirErr <;> simp [hm]

/-- An environment oracle with an absent runtime dir whose creation
succeeds. -/
def c4okO : envOracle := ⟨fun _ => false, none, "/usr/bin"⟩

theorem xdg_dir_creation_witness :
    envEvent.mkdirAll ((c4S.defineEnvironment c4okO).1.getenv envXdgRuntimeDir) ∈
      (c4S.defineEnvironment c4okO).2.1 ∧
    (c4S.defineEnvironment c4okO).2.2 = c4okO.mkdirErr.isSome ∧
    (envEvent.chown ((c4S.defineEnvironment c4okO).1.getenv envXdgRuntimeDir)
        c4S.usr.uid c4S.usr.gid ∈ (c4S.defineEnvironment c4okO).2.1 ↔
      c4okO.mkdirErr = none) :=
  xdg_dir_creation c4S c4okO rfl rfl

/-! ## Claim theorems: GUI command preparation -/

/-- C5 counterexample setup: a system-provided (non-user) desktop whose
command disallows a startup wrapper. -/
def rawDesk : desktop := ⟨enDisplay.Wayland, "weston", none, false, "", "weston --config w", false⟩

def c5S : commonSession := ⟨aliceUsr, rawDesk, fallConf⟩

def noFs : String → Bool := fun _ => false

/-- C5 counterexample: a selection whose command disallows a startup-prefix
wrapper but which is not user-provided is executed as a single opaque
string, not tokenized through the login shell — the claim's condition is
missing the user-provided conjunct of line 181. -/
theorem gui_raw_claim_cex :
    rawDesk.allowStartupWrap = false ∧
    rawDesk.isUser = false ∧
    (c5S.prepareGuiCommand noFs).1 = cmdAsUser aliceUsr "weston --config w" [] ∧
    (c5S.prepareGuiCommand noFs).1 ≠
      cmdAsUser aliceUsr (c5S.getLoginShell) ("weston --config w".splitOn " ") := by
  refine ⟨rfl, rfl, rfl, ?_⟩
  decide

/-- C5 (amended): a selection is tokenized by whitespace and run through the
user's login shell exactly when it is a user-provided session whose command
disallows a startup-prefix wrapper, or when the xinitrc path forced shell
wrapping; every other selection runs as a single opaque command string. -/
theorem gui_command_shell_wrapping (s : commonSession) (fe : String → Bool) :
    (s.prepareGuiCommand fe).1 =
      if (s.d.isUser && !s.d.allowStartupWrap) || xinitrcActive s fe then
        cmdAsUser s.usr s.getLoginShell (((s.prepareGuiCommand fe).2.1).splitOn " ")
      else
        cmdAsUser s.usr ((s.prepareGuiCommand fe).2.1) [] := by
  by_cases hx : xinitrcActive s fe = true
  · simp [commonSession.prepareGuiCommand, hx]
  · by_cases hs : (s.d.isUser && !s.d.allowStartupWrap) = true <;>
      by_cases hd : (s.d.allowStartupWrap && s.conf.DbusLaunch &&
        !(strContains s.d.strExec "dbus-launch")) = true <;>
        simp [commonSession.prepareGuiCommand, hx, hs, hd]

/-- C6 counterexample setup: Xorg family, `.xinitrc` present, command does
not reference it, but the xinitrc config flag is off. -/
def x6Desk : desktop := ⟨enDisplay.Xorg, "i3", none, false, "", "xterm", true⟩

def x6S : commonSession := ⟨aliceUsr, x6Desk, fallConf⟩

def allFs : String → Bool := fun _ => true

/-- C6 counterexample: with the Xorg family, `.xinitrc` existing in the home
directory and a command that does not reference it, `prepareGuiCommand`
still leaves the command line untouched when the `XinitrcLaunch`
configuration flag is disabled — the claim is missing that conjunct of
line 183. -/
theorem xinitrc_requires_flag_cex :
    x6Desk.env = enDisplay.Xorg ∧
    allFs (aliceUsr.homedir ++ "/.xinitrc") = true ∧
    strContains x6Desk.strExec ".xinitrc" = false ∧
    x6S.conf.XinitrcLaunch = false ∧
    (x6S.prepareGuiCommand allFs).2.1 = "xterm" ∧
    (x6S.prepareGuiCommand allFs).2.1 ≠ aliceUsr.homedir ++ "/.xinitrc xterm" := by
  refine ⟨rfl, rfl, by decide, rfl, by decide, by decide⟩

/-- C6 (amended): for an Xorg-family selection whose command allows a
startup-prefix wrapper, when the xinitrc config flag is enabled, the
per-user `.xinitrc` exists and the command line does not already reference
it, `prepareGuiCommand` prepends the script path to the command line and
forces shell-wrapped execution of the result. -/
theorem xinitrc_prepended (s : commonSession) (fe : String → Bool)
    (ha : s.d.allowStartupWrap = true) (hx : s.conf.XinitrcLaunch = true)
    (he : s.d.env = enDisplay.Xorg)
    (hc : strContains s.d.strExec ".xinitrc" = false)
    (hf : fe (s.usr.homedir ++ "/.xinitrc") = true) :
    (s.prepareGuiCommand fe).2.1 = s.usr.homedir ++ "/.xinitrc " ++ s.d.strExec ∧
    (s.prepareGuiCommand fe).1 =
      cmdAsUser s.usr s.getLoginShell (((s.prepareGuiCommand fe).2.1).splitOn " ") := by
  have hact : xinitrcActive s fe = true := by
    simp [xinitrcActive, ha, hx, he, hc, hf]
  simp [commonSession.prepareGuiCommand, hact]

/-- An Xorg session with the xinitrc config flag enabled. -/
def x6onConf : config := ⟨false, false, true, false, "C"⟩

def x6onS : commonSession := ⟨aliceUsr, x6Desk, x6onConf⟩

theorem xinitrc_prepended_witness :
    (x6onS.prepareGuiCommand allFs).2.1 =
      x6onS.usr.homedir ++ "/.xinitrc " ++ x6onS.d.strExec ∧
    (x6onS.prepareGuiCommand allFs).1 =
      cmdAsUser x6onS.usr x6onS.getLoginShell
        (((x6onS.prepareGuiCommand allFs).2.1).splitOn " ") :=
  xinitrc_prepended x6onS allFs rfl rfl rfl (by decide) rfl

/-! ## Claim theorems: printIssue trimming loop -/

theorem drop_two_of_all_newline (l : List Char) (h2 : 2 ≤ l.length)
    (hall : ∀ c ∈ l, c = '\n') : l.drop (l.length - 2) = ['\n', '\n'] := by
  have hlen : (l.drop (l.length - 2)).length = 2 := by
    rw [List.length_drop]; omega
  obtain ⟨a, b, hab⟩ := List.length_eq_two.mp hlen
  have ha : a ∈ l := List.mem_of_mem_drop (l := l) (by rw [hab]; simp)
  have hb : b ∈ l := List.mem_of_mem_drop (l := l) (by rw [hab]; simp)
  rw [hab, hall a ha, hall b hb]

theorem dropLast_case_iff (l : List Char) (h2 : 2 ≤ l.length)
    (hnn : l.drop (l.length - 2) = ['\n', '\n']) :
    ((2 ≤ l.dropLast.length ∧ ∃ c ∈ l.dropLast, c ≠ '\n') ↔
      (2 ≤ l.length ∧ ∃ c ∈ l, c ≠ '\n')) := by
  rcases Nat.lt_or_ge l.length 3 with h3 | h3
  · have h0 : l.length - 2 = 0 := by omega
    rw [h0, List.drop_zero] at hnn
    subst hnn
    simp
  · have hlast : ∀ c ∈ l.drop (l.length - 1), c = '\n' := by
      intro c hc
      have heq : l.length - 1 = (l.length - 2) + 1 := by omega
      rw [heq, ← List.drop_drop] at hc
      rw [hnn] at hc
      simpa using hc
    constructor
    · rintro ⟨-, c, hc, hcn⟩
      exact ⟨h2, c, List.mem_of_mem_dropLast hc, hcn⟩
    · rintro ⟨-, c, hc, hcn⟩
      refine ⟨by rw [List.length_dropLast]; omega, c, ?_, hcn⟩
      rw [List.dropLast_eq_take]
      rw [← List.take_append_drop (l.length - 1) l] at hc
      rcases List.mem_append.mp hc with h | h
      · exact h
      · exact absurd (hlast c h) hcn

theorem printIssueTrimGo_isSome (fuel : Nat) :
    ∀ l : List Char, l.length ≤ fuel →
      ((printIssueTrimGo fuel l).isSome = true ↔
        2 ≤ l.length ∧ ∃ c ∈ l, c ≠ '\n') := by
  induction fuel with
  | zero =>
    intro l hf
    simp only [printIssueTrimGo, Option.isSome_none, Bool.false_eq_true, false_iff]
    rintro ⟨h2, -⟩
    omega
  | succ n ih =>
    intro l hf
    by_cases h2 : l.length < 2
    · rw [printIssueTrimGo.eq_2, if_pos h2]
      simp only [Option.isSome_none, Bool.false_eq_true, false_iff]
      rintro ⟨hge, -⟩
      omega
    · rw [printIssueTrimGo.eq_2, if_neg h2]
      push_neg at h2
      by_cases hnn : l.drop (l.length - 2) = ['\n', '\n']
      · rw [if_pos hnn]
        rw [ih l.dropLast (by rw [List.length_dropLast]; omega)]
        exact dropLast_case_iff l h2 hnn
      · rw [if_neg hnn]
        simp only [Option.isSome_some, true_iff]
        refine ⟨h2, ?_⟩
        by_contra hall
        push_neg at hall
        exact hnn (drop_two_of_all_newline l h2 hall)

/-- C9 counterexample: the evaluated issue `"\n\n"` has length 2, so the
first slice is in bounds, yet the loop still runs out of range (on its
second iteration the text has length 1), refuting that length ≥ 2 keeps
all the loop's indexing in bounds. -/
theorem printIssue_trim_len2_cex :
    (['\n', '\n'] : List Char).length = 2 ∧
    printIssueTrim ['\n', '\n'] = none :=
  ⟨rfl, rfl⟩

/-- C9 (amended): the trimming loop of `printIssue` stays in bounds and is
total exactly for issue texts of length at least 2 that contain at least one
non-newline byte; texts of length 0 or 1, and longer texts consisting
entirely of newlines, index out of range. -/
theorem printIssue_trim_in_bounds (l : List Char) :
    (printIssueTrim l).isSome = true ↔ 2 ≤ l.length ∧ ∃ c ∈ l, c ≠ '\n' :=
  printIssueTrimGo_isSome l.length l (le_refl _)
